import Mathlib

/-!
Shallow embedding of the `tuim` terminal-UI component core
(`src/components/mod.rs`, `src/components/table.rs`).

Machine integers (`u8`, `u32`) are modelled as `Nat`: no arithmetic is ever
performed on them by the embedded code, so overflow cannot occur and the
embedding is exact on the shared range.  Rust `String` is Lean `String`,
`char` is `Char`, `Vec` is `List`.  Trait-object children
(`Vec<Box<dyn UIElement>>`) are modelled by the closed sum `Widget` of the
two implementors present in the source (`Table`, `Container`).
-/

namespace Tuim

/-- `Size` from `mod.rs`: a size with a unit (`Auto`, `Chars(u8)`,
`Percents(u8)`). -/
inductive Size where
  | Auto : Size
  | Chars : Nat → Size
  | Percents : Nat → Size
  deriving DecidableEq, Repr

/-- `Layout` from `mod.rs`: how a container displays its elements. -/
inductive Layout where
  | Horizontal : Layout
  | Vertical : Layout
  | Tabbed : Layout
  deriving DecidableEq, Repr

/-- `Position` from `mod.rs`: declared in the source, never consumed by any
logic; included for completeness of the data model. -/
inductive Position where
  | Absolute : Position
  | Relative : Position
  deriving DecidableEq, Repr

/-- The `Table` struct from `table.rs`, field for field, in source order. -/
structure Table where
  z_index : Nat
  headers : List String
  data : List (List String)
  border_vertical : Char
  border_horizontal : Char
  border_intersect : Char
  padding_vertical : Nat
  padding_horizontal : Nat
  title : String
  width : Size
  height : Size
  updated : Bool
  current_page : Nat
  items_by_page : Nat
  deriving Repr

/-- `Table::new` (`TableTrait::new` impl, table.rs lines 67-84): stores the
headers and data as given and fills in every other field with the literal
written in the source.  The source performs no validation of row lengths. -/
def Table.new (headers : List String) (data : List (List String)) : Table :=
  { z_index := 0
    headers := headers
    data := data
    border_vertical := ' '
    border_horizontal := ' '
    border_intersect := ' '
    padding_vertical := 1
    padding_horizontal := 1
    title := ""
    width := Size.Auto
    height := Size.Auto
    updated := true
    current_page := 0
    items_by_page := 20 }

/-- `Table::set_current_page`. -/
def Table.set_current_page (t : Table) (current_page : Nat) : Table :=
  { t with current_page := current_page }

/-- `Table::set_items_by_page`. -/
def Table.set_items_by_page (t : Table) (items_by_page : Nat) : Table :=
  { t with items_by_page := items_by_page }

/-- `Table::set_z_index` (UIElement impl). -/
def Table.set_z_index (t : Table) (z_index : Nat) : Table :=
  { t with z_index := z_index }

/-- `Table::set_title` (UIElement impl). -/
def Table.set_title (t : Table) (title : String) : Table :=
  { t with title := title }

/-- `Table::set_width` (UIElement impl). -/
def Table.set_width (t : Table) (width : Size) : Table :=
  { t with width := width }

/-- `Table::set_height` (UIElement impl). -/
def Table.set_height (t : Table) (height : Size) : Table :=
  { t with height := height }

/-- `Table::set_updated` (UIElement impl). -/
def Table.set_updated (t : Table) (updated : Bool) : Table :=
  { t with updated := updated }

mutual

/-- A `Box<dyn UIElement>` value: the closed sum of the two `UIElement`
implementors in the source. -/
inductive Widget where
  | table : Table → Widget
  | container : Container → Widget

/-- The `Container` struct from `mod.rs` (lines 88-119), fields in source
order: z_index, title, width, height, updated, border_vertical,
border_horizontal, border_intersect, padding_vertical, padding_horizontal,
layout, elements. -/
inductive Container where
  | mk : Nat → String → Size → Size → Bool → Char → Char → Char → Nat →
      Nat → Layout → List Widget → Container

end

/-- Field `Container.z_index`. -/
def Container.z_index : Container → Nat
  | .mk z _ _ _ _ _ _ _ _ _ _ _ => z

/-- Field `Container.title`. -/
def Container.title : Container → String
  | .mk _ t _ _ _ _ _ _ _ _ _ _ => t

/-- Field `Container.width`. -/
def Container.width : Container → Size
  | .mk _ _ w _ _ _ _ _ _ _ _ _ => w

/-- Field `Container.height`. -/
def Container.height : Container → Size
  | .mk _ _ _ h _ _ _ _ _ _ _ _ => h

/-- Field `Container.updated`. -/
def Container.updated : Container → Bool
  | .mk _ _ _ _ u _ _ _ _ _ _ _ => u

/-- Field `Container.border_vertical`. -/
def Container.border_vertical : Container → Char
  | .mk _ _ _ _ _ bv _ _ _ _ _ _ => bv

/-- Field `Container.border_horizontal`. -/
def Container.border_horizontal : Container → Char
  | .mk _ _ _ _ _ _ bh _ _ _ _ _ => bh

/-- Field `Container.border_intersect`. -/
def Container.border_intersect : Container → Char
  | .mk _ _ _ _ _ _ _ bi _ _ _ _ => bi

/-- Field `Container.padding_vertical`. -/
def Container.padding_vertical : Container → Nat
  | .mk _ _ _ _ _ _ _ _ pv _ _ _ => pv

/-- Field `Container.padding_horizontal`. -/
def Container.padding_horizontal : Container → Nat
  | .mk _ _ _ _ _ _ _ _ _ ph _ _ => ph

/-- Field `Container.layout`. -/
def Container.layout : Container → Layout
  | .mk _ _ _ _ _ _ _ _ _ _ l _ => l

/-- Field `Container.elements`. -/
def Container.elements : Container → List Widget
  | .mk _ _ _ _ _ _ _ _ _ _ _ e => e

/-- `Container::new` (mod.rs lines 121-143): stores the given elements and
layout and fills every other field with the literal written in the source. -/
def Container.new (elements : List Widget) (layout : Layout) : Container :=
  .mk 0 "" Size.Auto Size.Auto true ' ' ' ' ' ' 0 0 layout elements

/-- `Container::set_z_index` (UIElement impl).  The source stores the value
on the container itself only; `elements` is untouched (a `TODO` comment in
the source asks whether it should cascade). -/
def Container.set_z_index (c : Container) (z_index : Nat) : Container :=
  match c with
  | .mk _ t w h u bv bh bi pv ph l e =>
      .mk z_index t w h u bv bh bi pv ph l e

/-- `Container::set_title` (UIElement impl). -/
def Container.set_title (c : Container) (title : String) : Container :=
  match c with
  | .mk z _ w h u bv bh bi pv ph l e => .mk z title w h u bv bh bi pv ph l e

/-- `Container::set_width` (UIElement impl). -/
def Container.set_width (c : Container) (width : Size) : Container :=
  match c with
  | .mk z t _ h u bv bh bi pv ph l e => .mk z t width h u bv bh bi pv ph l e

/-- `Container::set_height` (UIElement impl). -/
def Container.set_height (c : Container) (height : Size) : Container :=
  match c with
  | .mk z t w _ u bv bh bi pv ph l e => .mk z t w height u bv bh bi pv ph l e

/-- `Container::set_updated` (UIElement impl). -/
def Container.set_updated (c : Container) (updated : Bool) : Container :=
  match c with
  | .mk z t w h _ bv bh bi pv ph l e => .mk z t w h updated bv bh bi pv ph l e

/-- Dynamic dispatch of `UIElement::z_index` over a boxed widget. -/
def Widget.z_index : Widget → Nat
  | .table t => t.z_index
  | .container c => c.z_index

/-- Dynamic dispatch of `UIElement::title`. -/
def Widget.title : Widget → String
  | .table t => t.title
  | .container c => c.title

/-- Dynamic dispatch of `UIElement::width`. -/
def Widget.width : Widget → Size
  | .table t => t.width
  | .container c => c.width

/-- Dynamic dispatch of `UIElement::height`. -/
def Widget.height : Widget → Size
  | .table t => t.height
  | .container c => c.height

/-- Dynamic dispatch of `UIElement::updated`. -/
def Widget.updated : Widget → Bool
  | .table t => t.updated
  | .container c => c.updated

/-- Dynamic dispatch of `UIElement::set_z_index`. -/
def Widget.set_z_index : Widget → Nat → Widget
  | .table t, z => .table (t.set_z_index z)
  | .container c, z => .container (c.set_z_index z)

/-- Dynamic dispatch of `UIElement::set_title`. -/
def Widget.set_title : Widget → String → Widget
  | .table t, s => .table (t.set_title s)
  | .container c, s => .container (c.set_title s)

/-- Dynamic dispatch of `UIElement::set_width`. -/
def Widget.set_width : Widget → Size → Widget
  | .table t, s => .table (t.set_width s)
  | .container c, s => .container (c.set_width s)

/-- Dynamic dispatch of `UIElement::set_height`. -/
def Widget.set_height : Widget → Size → Widget
  | .table t, s => .table (t.set_height s)
  | .container c, s => .container (c.set_height s)

/-- Dynamic dispatch of `UIElement::set_updated`. -/
def Widget.set_updated : Widget → Bool → Widget
  | .table t, b => .table (t.set_updated b)
  | .container c, b => .container (c.set_updated b)

/-- Modelled from the spec: `visible_rows` (spec section 4.3) is required of a
reimplementation but absent from the source, which only stores the pagination
fields.  Spec words: conceptually
`data[current_page*items_by_page .. min(data.len(), (current_page+1)*items_by_page)]`.
The half-open slice `data[lo .. hi]` is `(data.drop lo).take (hi - lo)`. -/
def Table.visible_rows (t : Table) : List (List String) :=
  let lo := t.current_page * t.items_by_page
  let hi := min t.data.length ((t.current_page + 1) * t.items_by_page)
  (t.data.drop lo).take (hi - lo)

/-- Boolean test used by the resolver to count `Auto` children. -/
def Size.is_auto : Size → Bool
  | Size.Auto => true
  | _ => false

/-- Modelled from the spec: step 1 of the layout resolver (spec section 4.2),
absent from the source.  The deterministic first-pass share of a non-`Auto`
child: `Chars(n)` is clamped to not exceed the available dimension, and
`Percents(p)` is `floor(w*p/100)` of the container's resolved dimension.
`Auto` children receive nothing in this pass. -/
def fixed_alloc (w : Nat) : Size → Nat
  | Size.Auto => 0
  | Size.Chars n => min n w
  | Size.Percents p => w * p / 100

/-- Modelled from the spec: the per-child assignment pass of the resolver,
absent from the source.  `q` is the equal share of each `Auto` child,
`r` the number of leftover cells, `k` the number of `Auto` children already
seen; the first `r` `Auto` children in sequence order get one extra cell. -/
def assign_axis (q r w : Nat) : List Size → Nat → List Nat
  | [], _ => []
  | Size.Auto :: rest, k =>
      (q + if k < r then 1 else 0) :: assign_axis q r w rest (k + 1)
  | s :: rest, k => fixed_alloc w s :: assign_axis q r w rest k

/-- Modelled from the spec: steps 1-2 of the layout resolver along the divided
axis (spec section 4.2), absent from the source.  `Chars`/`Percents` children
get their deterministic share first; the remaining space (floored at zero) is
divided equally among `Auto` children, earlier children receiving the extra
one-cell remainders. -/
def resolve_axis (sizes : List Size) (w : Nat) : List Nat :=
  let fixed := (sizes.map (fixed_alloc w)).sum
  let remaining := w - fixed
  let n := (sizes.filter Size.is_auto).length
  assign_axis (remaining / n) (remaining % n) w sizes 0

/-- Modelled from the spec: step 3 of the layout resolver (spec section 4.2),
absent from the source.  For `Horizontal` the divided dimension is width and
every child receives the full height; for `Vertical` it is the converse; for
`Tabbed` every child receives the full box. -/
def Container.resolve (c : Container) (available_width available_height : Nat) :
    List (Nat × Nat) :=
  match c.layout with
  | Layout.Horizontal =>
      (resolve_axis (c.elements.map Widget.width) available_width).map
        (fun w => (w, available_height))
  | Layout.Vertical =>
      (resolve_axis (c.elements.map Widget.height) available_height).map
        (fun h => (available_width, h))
  | Layout.Tabbed =>
      c.elements.map (fun _ => (available_width, available_height))

/-- A concrete 25-row, one-column data grid used for the pagination example
of the spec (25 rows, `items_by_page = 10`). -/
def sample_rows : List (List String) :=
  (List.range 25).map (fun n => [toString n])

/-- The sample table of the pagination example: 25 rows, 10 items per page. -/
def sample_table : Table :=
  (Table.new ["n"] sample_rows).set_items_by_page 10

/-! ## Helper lemmas about the layout resolver -/

/-- On an all-`Auto` child list, the assignment pass yields
`q` plus one extra cell for exactly the first `r` children (in sequence
order, offset by the `k` `Auto` children already seen). -/
theorem assign_axis_all_auto (q r w : Nat) (sizes : List Size)
    (hall : ∀ s ∈ sizes, s = Size.Auto) (k : Nat) :
    assign_axis q r w sizes k =
      (List.range sizes.length).map (fun m => q + if k + m < r then 1 else 0) := by
  induction sizes generalizing k with
  | nil => simp [assign_axis]
  | cons s rest ih =>
      have hs : s = Size.Auto := hall s (List.mem_cons_self s rest)
      subst hs
      have hrest : ∀ s ∈ rest, s = Size.Auto := fun s hs =>
        hall s (List.mem_cons_of_mem _ hs)
      simp only [assign_axis, ih hrest (k + 1), List.length_cons,
        List.range_succ_eq_map, List.map_cons, List.map_map]
      congr 1
      apply List.map_congr_left
      intro m _
      simp only [Function.comp_apply, Nat.succ_eq_add_one]
      have h : k + 1 + m = k + (m + 1) := by omega
      rw [h]

/-- Summing `q` plus a one-cell bonus for the first `r` of `n` children
gives `n*q + min r n`. -/
theorem sum_range_indicator (q r n : Nat) :
    ((List.range n).map (fun m => q + if m < r then 1 else 0)).sum =
      n * q + min r n := by
  induction n with
  | zero => simp
  | succ n ih =>
      rw [List.range_succ, List.map_append, List.sum_append]
      simp only [List.map_cons, List.map_nil, List.sum_cons, List.sum_nil, ih,
        Nat.succ_mul]
      rcases Nat.lt_or_ge n r with h | h
      · rw [if_pos h]; omega
      · rw [if_neg (by omega)]; omega

/-- On an all-`Auto` child list the resolver allots `w / n` to every child
plus one extra cell to the first `w % n` children. -/
theorem resolve_axis_all_auto (sizes : List Size) (w : Nat)
    (hall : ∀ s ∈ sizes, s = Size.Auto) :
    resolve_axis sizes w =
      (List.range sizes.length).map
        (fun m => w / sizes.length + if m < w % sizes.length then 1 else 0) := by
  have hfix : (sizes.map (fixed_alloc w)).sum = 0 := by
    apply List.sum_eq_zero
    intro x hx
    rcases List.mem_map.mp hx with ⟨s, hs, rfl⟩
    rw [hall s hs]
    rfl
  have hfilter : sizes.filter Size.is_auto = sizes := by
    rw [List.filter_eq_self]
    intro s hs
    rw [hall s hs]
    rfl
  rw [resolve_axis]
  simp only [hfix, hfilter, Nat.sub_zero]
  rw [assign_axis_all_auto _ _ _ _ hall 0]
  simp

/-- Indexing into the half-open slice `l[lo .. hi]`
(written `(l.drop lo).take (hi - lo)`). -/
theorem slice_getElem (l : List (List String)) (lo hi : Nat) (i : Nat) :
    ((l.drop lo).take (hi - lo))[i]? =
      if lo + i < min l.length hi then l[lo + i]? else none := by
  rcases Nat.lt_or_ge i (hi - lo) with h | h
  · rw [List.getElem?_take_of_lt h, List.getElem?_drop]
    rcases Nat.lt_or_ge (lo + i) l.length with h2 | h2
    · have hlt : lo + i < min l.length hi := by omega
      rw [if_pos hlt]
    · have hnone : l[lo + i]? = none := List.getElem?_eq_none h2
      rw [hnone]
      split <;> rfl
  · have hlen : ((l.drop lo).take (hi - lo)).length ≤ i := by
      rw [List.length_take]
      omega
    rw [List.getElem?_eq_none hlen]
    have hge : ¬ lo + i < min l.length hi := by omega
    rw [if_neg hge]

/-! ## Claim theorems -/

/-- Claim C1, counterexample: the claim says every state-mutating operation
leaves `updated()` true afterwards.  In the source no setter touches the
`updated` field, so after `set_updated(false)` a `set_title` call leaves the
flag false. -/
theorem mutation_keeps_cleared_flag_cex :
    (((Table.new ["a"] [["1"]]).set_updated false).set_title "x").updated
      = false := rfl

/-- Claim C1, amended: no state-mutating operation modifies the dirty flag at
all — after any of `set_title`, `set_width`, `set_height`, `set_z_index`,
`set_current_page`, `set_items_by_page` (on a Table or a Container),
`updated()` returns its prior value.  The flag is true at construction and
changes only through an explicit `set_updated` call. -/
theorem dirty_flag_amended :
    (∀ (w : Widget) (s : String), (w.set_title s).updated = w.updated) ∧
    (∀ (w : Widget) (s : Size), (w.set_width s).updated = w.updated) ∧
    (∀ (w : Widget) (s : Size), (w.set_height s).updated = w.updated) ∧
    (∀ (w : Widget) (z : Nat), (w.set_z_index z).updated = w.updated) ∧
    (∀ (t : Table) (n : Nat), (t.set_current_page n).updated = t.updated) ∧
    (∀ (t : Table) (n : Nat), (t.set_items_by_page n).updated = t.updated) ∧
    (∀ (headers : List String) (data : List (List String)),
      (Table.new headers data).updated = true) ∧
    (∀ (elements : List Widget) (layout : Layout),
      (Container.new elements layout).updated = true) ∧
    (∀ (w : Widget) (b : Bool), (w.set_updated b).updated = b) := by
  refine ⟨?_, ?_, ?_, ?_, ?_, ?_, ?_, ?_, ?_⟩ <;>
    intro a b <;>
    first
      | rfl
      | (cases a with
          | table t => rfl
          | container c => cases c; rfl)

/-- Claim C2, counterexample: the claim says construction fails whenever some
data row length differs from the header length.  In the source `Table::new`
performs no check: with headers of length 2 and a single row of length 1,
construction succeeds and stores the mismatched row verbatim. -/
theorem table_new_no_validation_cex :
    (["1"] : List String).length ≠ (["a", "b"] : List String).length ∧
    (Table.new ["a", "b"] [["1"]]).headers = ["a", "b"] ∧
    (Table.new ["a", "b"] [["1"]]).data = [["1"]] :=
  ⟨by decide, rfl, rfl⟩

/-- Claim C2, amended: `Table::new` validates nothing — even when some data
row's length differs from the header length, construction succeeds and stores
both headers and data unchanged (no truncation, no padding, no error); the
length requirement is only a documented caller obligation. -/
theorem table_new_no_validation (headers : List String)
    (data : List (List String))
    (_h : ∃ row ∈ data, row.length ≠ headers.length) :
    (Table.new headers data).headers = headers ∧
    (Table.new headers data).data = data :=
  ⟨rfl, rfl⟩

/-- Claim C2 witness: the amended theorem applied at headers `["a","b"]` and
data `[["1"]]`. -/
theorem table_new_no_validation_witness :
    (Table.new ["a", "b"] [["1"]]).headers = ["a", "b"] ∧
    (Table.new ["a", "b"] [["1"]]).data = [["1"]] :=
  table_new_no_validation ["a", "b"] [["1"]] ⟨["1"], by decide, by decide⟩

/-- Claim C3, counterexample: the claim quantifies over every container all of
whose children have Size `Auto`, which vacuously includes a container with no
children; there the resolver (spec section 4.2: zero children resolve to an
empty mapping) assigns a total of 0, not the available dimension 1. -/
theorem auto_split_empty_container_cex :
    (Container.new [] Layout.Horizontal).elements = [] ∧
    (((Container.new [] Layout.Horizontal).resolve 1 1).map Prod.fst).sum
      ≠ 1 :=
  ⟨rfl, by decide⟩

/-- Claim C3, amended: for every container with at least one child, all of
whose children have Size `Auto` along the divided axis, the resolver's
divided-axis pass (`resolve_axis` on the children's Size hints — widths for
`Horizontal`, heights for `Vertical`) assigns allotments that sum exactly to
the available dimension `W`, any two allotments differ by at most one cell,
and the per-child allotments are non-increasing in sequence order, so the
extra one-cell remainders go to the earlier children. -/
theorem auto_split_exact (sizes : List Size) (W : Nat)
    (hne : sizes ≠ []) (hall : ∀ s ∈ sizes, s = Size.Auto) :
    (resolve_axis sizes W).sum = W ∧
    (∀ a ∈ resolve_axis sizes W, ∀ b ∈ resolve_axis sizes W, a ≤ b + 1) ∧
    List.Pairwise (fun a b => b ≤ a) (resolve_axis sizes W) := by
  have hn : 0 < sizes.length := List.length_pos.mpr hne
  have hres := resolve_axis_all_auto sizes W hall
  refine ⟨?_, ?_, ?_⟩
  · rw [hres, sum_range_indicator]
    have hr : W % sizes.length < sizes.length := Nat.mod_lt _ hn
    have hmin : min (W % sizes.length) sizes.length = W % sizes.length := by
      omega
    rw [hmin]
    exact Nat.div_add_mod W sizes.length
  · intro a ha b hb
    rw [hres] at ha hb
    rcases List.mem_map.mp ha with ⟨ma, _, rfl⟩
    rcases List.mem_map.mp hb with ⟨mb, _, rfl⟩
    split <;> split <;> omega
  · rw [hres]
    refine List.Pairwise.map _ ?_ (List.pairwise_lt_range sizes.length)
    intro a b hab
    dsimp only
    split <;> split <;> omega

/-- Claim C3 witness: the amended theorem applied to three `Auto` children
and available dimension 10 (allotments 4, 3, 3). -/
theorem auto_split_exact_witness :
    (resolve_axis [Size.Auto, Size.Auto, Size.Auto] 10).sum = 10 ∧
    (∀ a ∈ resolve_axis [Size.Auto, Size.Auto, Size.Auto] 10,
      ∀ b ∈ resolve_axis [Size.Auto, Size.Auto, Size.Auto] 10, a ≤ b + 1) ∧
    List.Pairwise (fun a b => b ≤ a)
      (resolve_axis [Size.Auto, Size.Auto, Size.Auto] 10) :=
  auto_split_exact [Size.Auto, Size.Auto, Size.Auto] 10 (by decide) (by decide)

/-- Claim C4: `visible_rows()` is exactly the slice
`data[current_page*items_by_page .. min(data.len(), (current_page+1)*items_by_page)]`
in order (stated element-wise), and on the spec's 25-row table with
`items_by_page = 10`: page 0 yields rows 0-9, page 2 yields rows 20-24, and
the out-of-range page 3 yields the empty sequence rather than an error. -/
theorem visible_rows_slice :
    (∀ (t : Table) (i : Nat),
      t.visible_rows[i]? =
        if t.current_page * t.items_by_page + i <
            min t.data.length ((t.current_page + 1) * t.items_by_page)
        then t.data[t.current_page * t.items_by_page + i]?
        else none) ∧
    (sample_table.set_current_page 0).visible_rows = sample_rows.take 10 ∧
    (sample_table.set_current_page 2).visible_rows = sample_rows.drop 20 ∧
    (sample_table.set_current_page 3).visible_rows = [] := by
  refine ⟨?_, by decide, by decide, by decide⟩
  intro t i
  have h := slice_getElem t.data (t.current_page * t.items_by_page)
    (min t.data.length ((t.current_page + 1) * t.items_by_page)) i
  simp only [Table.visible_rows]
  rw [h]
  have hmin :
      min t.data.length
          (min t.data.length ((t.current_page + 1) * t.items_by_page)) =
        min t.data.length ((t.current_page + 1) * t.items_by_page) := by
    omega
  rw [hmin]

/-- Claim C5: constructing a Table from headers and a data grid whose rows
all match the header length and then reading `headers()` and `data()`
returns exactly the values passed in, in order. -/
theorem table_round_trip (headers : List String) (data : List (List String))
    (_h : ∀ row ∈ data, row.length = headers.length) :
    (Table.new headers data).headers = headers ∧
    (Table.new headers data).data = data :=
  ⟨rfl, rfl⟩

/-- Claim C5 witness: the spec's own example, headers `["a","b"]` and data
`[["1","2"],["3","4"]]`. -/
theorem table_round_trip_witness :
    (Table.new ["a", "b"] [["1", "2"], ["3", "4"]]).headers = ["a", "b"] ∧
    (Table.new ["a", "b"] [["1", "2"], ["3", "4"]]).data
      = [["1", "2"], ["3", "4"]] :=
  table_round_trip ["a", "b"] [["1", "2"], ["3", "4"]] (by decide)

/-- Claim C6: for every widget (Table or Container) and Size `s`,
`set_width(s)` followed by `width()` returns `s`, likewise
`set_height(s)`/`height()`, the stored value being returned untransformed;
and every other widget field apart from the dirty flag keeps its previous
value. -/
theorem size_store_and_return :
    (∀ (w : Widget) (s : Size), (w.set_width s).width = s) ∧
    (∀ (w : Widget) (s : Size), (w.set_height s).height = s) ∧
    (∀ (t : Table) (s : Size),
      (t.set_width s).z_index = t.z_index ∧
      (t.set_width s).headers = t.headers ∧
      (t.set_width s).data = t.data ∧
      (t.set_width s).border_vertical = t.border_vertical ∧
      (t.set_width s).border_horizontal = t.border_horizontal ∧
      (t.set_width s).border_intersect = t.border_intersect ∧
      (t.set_width s).padding_vertical = t.padding_vertical ∧
      (t.set_width s).padding_horizontal = t.padding_horizontal ∧
      (t.set_width s).title = t.title ∧
      (t.set_width s).height = t.height ∧
      (t.set_width s).current_page = t.current_page ∧
      (t.set_width s).items_by_page = t.items_by_page) ∧
    (∀ (t : Table) (s : Size),
      (t.set_height s).z_index = t.z_index ∧
      (t.set_height s).headers = t.headers ∧
      (t.set_height s).data = t.data ∧
      (t.set_height s).border_vertical = t.border_vertical ∧
      (t.set_height s).border_horizontal = t.border_horizontal ∧
      (t.set_height s).border_intersect = t.border_intersect ∧
      (t.set_height s).padding_vertical = t.padding_vertical ∧
      (t.set_height s).padding_horizontal = t.padding_horizontal ∧
      (t.set_height s).title = t.title ∧
      (t.set_height s).width = t.width ∧
      (t.set_height s).current_page = t.current_page ∧
      (t.set_height s).items_by_page = t.items_by_page) ∧
    (∀ (c : Container) (s : Size),
      (c.set_width s).z_index = c.z_index ∧
      (c.set_width s).title = c.title ∧
      (c.set_width s).height = c.height ∧
      (c.set_width s).border_vertical = c.border_vertical ∧
      (c.set_width s).border_horizontal = c.border_horizontal ∧
      (c.set_width s).border_intersect = c.border_intersect ∧
      (c.set_width s).padding_vertical = c.padding_vertical ∧
      (c.set_width s).padding_horizontal = c.padding_horizontal ∧
      (c.set_width s).layout = c.layout ∧
      (c.set_width s).elements = c.elements) ∧
    (∀ (c : Container) (s : Size),
      (c.set_height s).z_index = c.z_index ∧
      (c.set_height s).title = c.title ∧
      (c.set_height s).width = c.width ∧
      (c.set_height s).border_vertical = c.border_vertical ∧
      (c.set_height s).border_horizontal = c.border_horizontal ∧
      (c.set_height s).border_intersect = c.border_intersect ∧
      (c.set_height s).padding_vertical = c.padding_vertical ∧
      (c.set_height s).padding_horizontal = c.padding_horizontal ∧
      (c.set_height s).layout = c.layout ∧
      (c.set_height s).elements = c.elements) := by
  refine ⟨?_, ?_, ?_, ?_, ?_, ?_⟩ <;>
    intro a s <;>
    first
      | (cases a with
          | table t => rfl
          | container c => cases c; rfl)
      | exact ⟨rfl, rfl, rfl, rfl, rfl, rfl, rfl, rfl, rfl, rfl, rfl, rfl⟩
      | (cases a
         exact ⟨rfl, rfl, rfl, rfl, rfl, rfl, rfl, rfl, rfl, rfl⟩)

/-- Claim C7: `Container::set_z_index(z)` stores `z` on the container itself
— accepting any value, with no validation — and leaves the `elements`
sequence, hence every child's own z index, unchanged (no cascading; the
source carries a `TODO` asking whether it should cascade). -/
theorem set_z_index_no_cascade (c : Container) (z : Nat) :
    (c.set_z_index z).z_index = z ∧
    (c.set_z_index z).elements = c.elements ∧
    (c.set_z_index z).elements.map Widget.z_index
      = c.elements.map Widget.z_index := by
  cases c
  exact ⟨rfl, rfl, rfl⟩

/-- Claim C8: for every child list and layout, `Container::new` produces a
container with width and height both `Auto`, dirty flag true, all three
border glyphs the blank space character, and zero vertical and horizontal
padding. -/
theorem container_new_defaults (elements : List Widget) (layout : Layout) :
    (Container.new elements layout).width = Size.Auto ∧
    (Container.new elements layout).height = Size.Auto ∧
    (Container.new elements layout).updated = true ∧
    (Container.new elements layout).border_vertical = ' ' ∧
    (Container.new elements layout).border_horizontal = ' ' ∧
    (Container.new elements layout).border_intersect = ' ' ∧
    (Container.new elements layout).padding_vertical = 0 ∧
    (Container.new elements layout).padding_horizontal = 0 :=
  ⟨rfl, rfl, rfl, rfl, rfl, rfl, rfl, rfl⟩

/-- Claim C9: a Table newly constructed from valid headers and data has
`current_page() = 0`, `items_by_page() = 20` (a positive default),
`z_index() = 0`, an empty title, and `updated()` true. -/
theorem table_new_defaults (headers : List String) (data : List (List String))
    (_h : ∀ row ∈ data, row.length = headers.length) :
    (Table.new headers data).current_page = 0 ∧
    (Table.new headers data).items_by_page = 20 ∧
    0 < (Table.new headers data).items_by_page ∧
    (Table.new headers data).z_index = 0 ∧
    (Table.new headers data).title = "" ∧
    (Table.new headers data).updated = true := by
  refine ⟨rfl, rfl, ?_, rfl, rfl, rfl⟩
  show (0 : Nat) < 20
  decide

/-- Claim C9 witness: the defaults theorem applied at headers `["a","b"]`
and data `[["1","2"],["3","4"]]`. -/
theorem table_new_defaults_witness :
    (Table.new ["a", "b"] [["1", "2"], ["3", "4"]]).current_page = 0 ∧
    (Table.new ["a", "b"] [["1", "2"], ["3", "4"]]).items_by_page = 20 ∧
    0 < (Table.new ["a", "b"] [["1", "2"], ["3", "4"]]).items_by_page ∧
    (Table.new ["a", "b"] [["1", "2"], ["3", "4"]]).z_index = 0 ∧
    (Table.new ["a", "b"] [["1", "2"], ["3", "4"]]).title = "" ∧
    (Table.new ["a", "b"] [["1", "2"], ["3", "4"]]).updated = true :=
  table_new_defaults ["a", "b"] [["1", "2"], ["3", "4"]] (by decide)

/-- Claim C10: whatever headers and data are passed, `Table::new` yields the
space character for all three border glyphs and 1 for both padding counts —
the constructor takes no argument that could select the bordered
`|`/`-`/`+` variant or other padding. -/
theorem table_border_padding_fixed (headers : List String)
    (data : List (List String)) :
    (Table.new headers data).border_vertical = ' ' ∧
    (Table.new headers data).border_horizontal = ' ' ∧
    (Table.new headers data).border_intersect = ' ' ∧
    (Table.new headers data).padding_vertical = 1 ∧
    (Table.new headers data).padding_horizontal = 1 :=
  ⟨rfl, rfl, rfl, rfl, rfl⟩

end Tuim
